import Mathlib

/-!
Verification of the sonar-snow gateway core (src/gateway/index.js).

The stateful JavaScript code is embedded as explicit state-passing Lean
functions.  A `World` carries the module-level token cache
(`cachedToken`, `tokenExpiry`) together with an append-only trace of the
outbound network calls made so far; every function that performs an HTTP
request appends a `CallEvent` to the trace.  The outcome of each HTTP
request is supplied by an environment (a function from invocation data to
an `HttpOutcome`), so the handlers are deterministic functions of the
environment, the request body, the clock and the starting world.
-/

namespace Gateway

/-- Outcome of one axios request: a 2xx response carrying data, an error
response with a status code (axios `error.response`), or no response at
all (axios `error.request`). -/
inductive HttpOutcome (α : Type) where
  | ok (data : α)
  | httpError (status : Nat) (body : String)
  | noResponse (msg : String)
deriving DecidableEq

/-- JavaScript truthiness of a possibly-absent string: `null`/`undefined`
and the empty string are falsy. -/
def truthyStr : Option String → Bool
  | none => false
  | some s => s != ""

/-- JavaScript truthiness of a possibly-absent number: `null`/`undefined`
and `0` are falsy. -/
def truthyInt : Option Int → Bool
  | none => false
  | some n => n != 0

/-- JavaScript `a || d` for a possibly-absent number `a` (0 is falsy). -/
def jsOrInt : Option Int → Int → Int
  | none, d => d
  | some n, d => if n == 0 then d else n

/-- JavaScript `a || d` for a possibly-absent string `a` ("" is falsy). -/
def jsOrStr : Option String → String → String
  | none, d => d
  | some s, d => if s == "" then d else s

/-- JavaScript template interpolation of a possibly-absent string:
`undefined` prints as the literal text "undefined". -/
def jsShow : Option String → String
  | none => "undefined"
  | some s => s

/-- JavaScript `xs?.[0]` on a possibly-absent array. -/
def jsHead {α : Type} : Option (List α) → Option α
  | none => none
  | some l => l.head?

/-- The module-level token cache: `let cachedToken = null; let tokenExpiry = null`. -/
structure CacheState where
  cachedToken : Option String
  tokenExpiry : Option Int
deriving DecidableEq

/-- One outbound network call, as recorded in the trace. -/
inductive CallEvent where
  | oauthExchange
  | submitIncident (token : String)
  | sonarFetch (key : String)
  | emailSend
deriving DecidableEq

/-- Whole mutable state of the process: the token cache plus the ordered
log of outbound calls made so far. -/
structure World where
  cache : CacheState
  calls : List CallEvent
deriving DecidableEq

/-- Body of a successful OAuth token response. -/
structure TokenResponse where
  access_token : Option String
  expires_in : Option Int
deriving DecidableEq

/-- The condition of the cache-hit fast path in `getServiceNowToken`:
`cachedToken && tokenExpiry && Date.now() < tokenExpiry - 300000`. -/
def tokenCacheValid (now : Int) (c : CacheState) : Bool :=
  truthyStr c.cachedToken && truthyInt c.tokenExpiry &&
    decide (now < c.tokenExpiry.getD 0 - 300000)

/-- `getServiceNowToken` from src/gateway/index.js.  Returns the cached
token when still valid (5-minute buffer); otherwise performs the OAuth
client-credentials exchange (outcome supplied by `fetchOutcome`), caching
the token on success (expiry defaults to 1800 s when `expires_in` is
absent or 0) and propagating a wrapped error on failure. -/
def getServiceNowToken (now : Int) (fetchOutcome : HttpOutcome TokenResponse)
    (w : World) : Except String String × World :=
  if tokenCacheValid now w.cache then
    (.ok (w.cache.cachedToken.getD ""), w)
  else
    let w1 : World := ⟨w.cache, w.calls ++ [CallEvent.oauthExchange]⟩
    match fetchOutcome with
    | .ok data =>
      if truthyStr data.access_token then
        let tok := data.access_token.getD ""
        let expiresIn := jsOrInt data.expires_in 1800
        (.ok tok, ⟨⟨some tok, some (now + expiresIn * 1000)⟩, w1.calls⟩)
      else
        (.error "ServiceNow token missing in response", w1)
    | .httpError status detail =>
      (.error s!"ServiceNow OAuth error: {status} - {detail}", w1)
    | .noResponse msg =>
      (.error s!"ServiceNow OAuth unreachable: {msg}", w1)

/-- A created incident as used by the gateway (`number` and `sys_id`). -/
structure Incident where
  number : String
  sys_id : String
deriving DecidableEq

/-- The incident payload posted to the ticketing table API. -/
structure TicketPayload where
  short_description : String
  description : String
  urgency : String
  impact : String
deriving DecidableEq

/-- `createServiceNowIncident` from src/gateway/index.js.  Posts the
payload with the given bearer token (response determined by `submit`
from the token and payload actually sent).  A 401 response clears the
cached token before the wrapped error is raised; a 2xx response without
a `result` field is itself an error. -/
def createServiceNowIncident (submit : String → TicketPayload → HttpOutcome (Option Incident))
    (token : String) (payload : TicketPayload) (w : World) :
    Except String Incident × World :=
  let w1 : World := ⟨w.cache, w.calls ++ [CallEvent.submitIncident token]⟩
  match submit token payload with
  | .ok (some result) => (.ok result, w1)
  | .ok none => (.error "Incident creation failed: no result in response", w1)
  | .httpError status body =>
    let w2 : World := if status == 401 then ⟨⟨none, none⟩, w1.calls⟩ else w1
    (.error s!"ServiceNow incident error: {status} - {body}", w2)
  | .noResponse msg =>
    (.error s!"ServiceNow incident API unreachable: {msg}", w1)

/-- One component entry of a SonarQube project-search response. -/
structure SonarComponent where
  key : String
  name : String
deriving DecidableEq

/-- Body of a SonarQube project-search response. -/
structure SonarData where
  components : Option (List SonarComponent)
deriving DecidableEq

/-- `getSonarQubeProject` from src/gateway/index.js: a Basic-authenticated
project search; non-2xx and no-response failures are wrapped into
descriptive errors. -/
def getSonarQubeProject (outcome : HttpOutcome SonarData) (projectKey : String)
    (w : World) : Except String SonarData × World :=
  let w1 : World := ⟨w.cache, w.calls ++ [CallEvent.sonarFetch projectKey]⟩
  match outcome with
  | .ok data => (.ok data, w1)
  | .httpError status statusText =>
    (.error s!"SonarQube API error: {status} - {statusText}", w1)
  | .noResponse msg =>
    (.error s!"SonarQube API unreachable: {msg}", w1)

/-- SMTP-related configuration read from the environment. -/
structure EmailConfig where
  smtpHost : Option String
  emailFrom : Option String
  emailTo : Option String
deriving DecidableEq

/-- `sendIncidentEmail` from src/gateway/index.js.  Skips entirely when
the channel is unconfigured; otherwise attempts the send, and swallows
any send failure (the outcome is logged, never propagated). -/
def sendIncidentEmail (cfg : EmailConfig) (sendOutcome : Except String Unit)
    (_incident : Incident) (_projectKey : String) (_projectName : Option String)
    (w : World) : World :=
  if truthyStr cfg.smtpHost && truthyStr cfg.emailFrom && truthyStr cfg.emailTo then
    let w1 : World := ⟨w.cache, w.calls ++ [CallEvent.emailSend]⟩
    match sendOutcome with
    | .ok _ => w1
    | .error _ => w1
  else w

/-- The options object taken by `retryOperation`. -/
structure RetryPolicy where
  retries : Nat
  baseDelayMs : Nat
  factor : Nat
  jitterMs : Nat
  label : String
deriving DecidableEq

/-- `Math.floor(Math.random() * jitterMs)` with the random draw `r`
(a real number in `[0,1)`, modelled as a rational). -/
def jitterOf (r : ℚ) (jitterMs : Nat) : Nat :=
  (Int.floor (r * (jitterMs : ℚ))).toNat

/-- The backoff delay computed after a failed attempt:
`baseDelayMs * factor ^ attempt + Math.floor(Math.random() * jitterMs)`. -/
def retryDelay (p : RetryPolicy) (r : ℚ) (attempt : Nat) : Nat :=
  p.baseDelayMs * p.factor ^ attempt + jitterOf r p.jitterMs

/-- Result of a whole `retryOperation` run: the final outcome, the final
state, the backoff delays slept (in order), and how many times the
wrapped operation was invoked. -/
structure RetryResult (E A σ : Type) where
  result : Except E A
  state : σ
  delays : List Nat
  calls : Nat

/-- The `while (attempt <= retries)` loop of `retryOperation`, with
`remaining = retries - attempt`.  `fn` is the wrapped operation (given
the attempt index and the current state); `rand` supplies the random
draw used for the jitter of each attempt's backoff. -/
def retryLoop {E A σ : Type} (fn : Nat → σ → Except E A × σ) (p : RetryPolicy)
    (rand : Nat → ℚ) : (attempt : Nat) → (remaining : Nat) → σ → RetryResult E A σ
  | attempt, 0, s =>
    match fn attempt s with
    | (.ok a, s1) => ⟨.ok a, s1, [], 1⟩
    | (.error e, s1) => ⟨.error e, s1, [], 1⟩
  | attempt, r + 1, s =>
    match fn attempt s with
    | (.ok a, s1) => ⟨.ok a, s1, [], 1⟩
    | (.error _, s1) =>
      let rest := retryLoop fn p rand (attempt + 1) r s1
      ⟨rest.result, rest.state, retryDelay p (rand attempt) attempt :: rest.delays,
        rest.calls + 1⟩

/-- `retryOperation` from src/gateway/index.js: run `fn` with up to
`p.retries` retries after the first attempt; on exhaustion the last
error is re-raised unchanged. -/
def retryOperation {E A σ : Type} (fn : Nat → σ → Except E A × σ) (p : RetryPolicy)
    (rand : Nat → ℚ) (s : σ) : RetryResult E A σ :=
  retryLoop fn p rand 0 p.retries s

/-- Policy used for OAuth token acquisition (`retries: 3`, defaults otherwise). -/
def snOauthPolicy : RetryPolicy := ⟨3, 500, 2, 100, "servicenow-oauth"⟩

/-- Policy used for the SonarQube lookup of one key (`retries: 2`). -/
def sonarPolicy (key : String) : RetryPolicy := ⟨2, 500, 2, 100, s!"sonarqube-{key}"⟩

/-- Policy used for incident creation for one key (`retries: 3`). -/
def incidentPolicy (key : String) : RetryPolicy := ⟨3, 500, 2, 100, s!"incident-{key}"⟩

/-- Status of one per-key outcome in the batch response. -/
inductive OutcomeStatus where
  | incident_created
  | not_found
  | error
deriving DecidableEq

/-- One entry of the `results` array of the batch endpoint. -/
structure OutcomeRecord where
  projectKey : String
  status : OutcomeStatus
  incident : Option Incident
  errMsg : Option String
deriving DecidableEq

/-- Response of the `/create-incidents` endpoint. -/
inductive BatchResponse where
  | badRequest (msg : String)
  | okResults (message : String) (results : List OutcomeRecord)
  | serverError (msg : String) (details : String)
deriving DecidableEq

/-- Environment of the batch endpoint: outcomes of every possible
outbound call, keyed by invocation data. -/
structure BatchEnv where
  oauthFetch : Nat → HttpOutcome TokenResponse
  sonar : String → Nat → HttpOutcome SonarData
  submit : String → Nat → String → TicketPayload → HttpOutcome (Option Incident)
  emailCfg : EmailConfig
  emailSend : String → Except String Unit
  rand : Nat → ℚ

/-- The incident payload built by the batch loop (urgency/impact "3"). -/
def batchPayload (key : String) (componentName : String) : TicketPayload :=
  ⟨s!"SonarQube issue: {componentName}",
   s!"Review analysis for {componentName} ({key})", "3", "3"⟩

/-- The SonarQube lookup of one key, wrapped in `retryOperation` (2 retries). -/
def sonarPhase (env : BatchEnv) (key : String) (w : World) :
    RetryResult String SonarData World :=
  retryOperation (fun a w => getSonarQubeProject (env.sonar key a) key w)
    (sonarPolicy key) env.rand w

/-- Incident creation for one key, wrapped in `retryOperation` (3 retries);
the bearer token is the one captured before the loop. -/
def incidentPhase (env : BatchEnv) (key : String) (token : String)
    (payload : TicketPayload) (w : World) : RetryResult String Incident World :=
  retryOperation (fun a w => createServiceNowIncident (env.submit key a) token payload w)
    (incidentPolicy key) env.rand w

/-- The body of the `for (const key of projectKeys)` loop of the batch
endpoint: resolve the project, short-circuit to `not_found` on an empty
component list, create the incident, send the best-effort email, and
convert any failure into an `error`-status record for this key. -/
def processKey (env : BatchEnv) (token : String) (key : String) (w : World) :
    OutcomeRecord × World :=
  let sres := sonarPhase env key w
  match sres.result with
  | .error e => (⟨key, .error, none, some e⟩, sres.state)
  | .ok projectData =>
    match jsHead projectData.components with
    | none => (⟨key, .not_found, none, none⟩, sres.state)
    | some component =>
      let payload := batchPayload key component.name
      let ires := incidentPhase env key token payload sres.state
      match ires.result with
      | .error e => (⟨key, .error, none, some e⟩, ires.state)
      | .ok incident =>
        let w2 := sendIncidentEmail env.emailCfg (env.emailSend key) incident key
          (some component.name) ires.state
        (⟨key, .incident_created, some ⟨incident.number, incident.sys_id⟩, none⟩, w2)

/-- The pre-batch OAuth token acquisition (`retryOperation` around
`getServiceNowToken`, 3 retries). -/
def batchTokenPhase (env : BatchEnv) (now : Int) (w : World) :
    RetryResult String String World :=
  retryOperation (fun a w => getServiceNowToken now (env.oauthFetch a) w)
    snOauthPolicy env.rand w

/-- One iteration of the batch loop: process a key starting from the
accumulated world and append its record to the accumulated results. -/
def batchStep (env : BatchEnv) (token : String)
    (acc : List OutcomeRecord × World) (key : String) :
    List OutcomeRecord × World :=
  let pr := processKey env token key acc.2
  (acc.1 ++ [pr.1], pr.2)

/-- The `/create-incidents` handler: validate the key list (non-empty,
at most 50), acquire the token once, then process the keys sequentially,
collecting one `OutcomeRecord` per key in input order. -/
def handleCreateIncidents (env : BatchEnv) (now : Int)
    (projectKeys : Option (List String)) (w0 : World) : BatchResponse × World :=
  match projectKeys with
  | none => (.badRequest "projectKeys must be non-empty array", w0)
  | some keys =>
    if keys.length == 0 then (.badRequest "projectKeys must be non-empty array", w0)
    else if keys.length > 50 then
      (.badRequest "projectKeys array too large (max 50)", w0)
    else
      let tres := batchTokenPhase env now w0
      match tres.result with
      | .error e => (.serverError "Batch processing failed" e, tres.state)
      | .ok token =>
        let finalAcc := List.foldl (batchStep env token) ([], tres.state) keys
        (.okResults "Batch processed" finalAcc.1, finalAcc.2)

/-- `project` object of a webhook payload. -/
structure WebhookProject where
  key : Option String
  name : Option String
deriving DecidableEq

/-- `qualityGate` object of a webhook payload. -/
structure QualityGate where
  status : Option String
deriving DecidableEq

/-- Body of a webhook request. -/
structure WebhookBody where
  project : Option WebhookProject
  qualityGate : Option QualityGate
deriving DecidableEq

/-- Environment of the webhook endpoint. -/
structure WebhookEnv where
  oauthFetch : Nat → HttpOutcome TokenResponse
  submit : Nat → String → TicketPayload → HttpOutcome (Option Incident)
  emailCfg : EmailConfig
  emailSend : Except String Unit
  rand : Nat → ℚ

/-- Response of the `/sonarqube-webhook` endpoint. -/
inductive WebhookResponse where
  | badRequest (msg : String)
  | created (incident : Incident)
  | noAction
  | serverError (details : String)
deriving DecidableEq

/-- `req.body.project?.key`. -/
def webhookKey (body : WebhookBody) : Option String :=
  body.project.bind WebhookProject.key

/-- `req.body.project?.name`. -/
def webhookName (body : WebhookBody) : Option String :=
  body.project.bind WebhookProject.name

/-- `req.body.qualityGate?.status`. -/
def webhookStatus (body : WebhookBody) : Option String :=
  body.qualityGate.bind QualityGate.status

/-- The incident payload built by the webhook handler (urgency/impact "2"). -/
def webhookPayload (projectKey : String) (projectName : Option String)
    (status : Option String) : TicketPayload :=
  let display := jsOrStr projectName projectKey
  let statusText := jsShow status
  ⟨s!"Quality Gate failed: {display}",
   s!"Project: {display}\nKey: {projectKey}\nQuality Gate Status: {statusText}",
   "2", "2"⟩

/-- The webhook's inline OAuth token acquisition. -/
def webhookTokenPhase (env : WebhookEnv) (now : Int) (w : World) :
    RetryResult String String World :=
  retryOperation (fun a w => getServiceNowToken now (env.oauthFetch a) w)
    snOauthPolicy env.rand w

/-- The webhook's incident creation, wrapped in `retryOperation`
(3 retries) with the captured bearer token. -/
def webhookIncidentPhase (env : WebhookEnv) (projectKey : String) (token : String)
    (payload : TicketPayload) (w : World) : RetryResult String Incident World :=
  retryOperation (fun a w => createServiceNowIncident (env.submit a) token payload w)
    (incidentPolicy projectKey) env.rand w

/-- The `/sonarqube-webhook` handler: 400 without a truthy project key;
no action when the quality-gate status is exactly "OK"; otherwise
acquire a token, create the incident, best-effort email, and answer with
the created incident; any failure becomes a 500 response. -/
def handleSonarWebhook (env : WebhookEnv) (now : Int) (body : WebhookBody)
    (w0 : World) : WebhookResponse × World :=
  let projectKey := webhookKey body
  let projectName := webhookName body
  let status := webhookStatus body
  if truthyStr projectKey = false then
    (.badRequest "Missing project key in webhook payload", w0)
  else
    if status = some "OK" then (.noAction, w0)
    else
      let pk := projectKey.getD ""
      let tres := webhookTokenPhase env now w0
      match tres.result with
      | .error e => (.serverError e, tres.state)
      | .ok token =>
        let payload := webhookPayload pk projectName status
        let ires := webhookIncidentPhase env pk token payload tres.state
        match ires.result with
        | .error e => (.serverError e, ires.state)
        | .ok incident =>
          let w2 := sendIncidentEmail env.emailCfg env.emailSend incident pk
            projectName ires.state
          (.created ⟨incident.number, incident.sys_id⟩, w2)

/-! ### Concrete instances used by witnesses and counterexamples -/

/-- The all-zero random stream (a valid value of `Math.random()`). -/
def czero : Nat → ℚ := fun _ => 0

/-- A webhook environment in which the ticketing service rejects the
stale token "staleT" with a 401 but would accept any other token, and
the OAuth exchange would hand out the fresh token "freshT". -/
def c1Env : WebhookEnv :=
  ⟨fun _ => .ok ⟨some "freshT", some 1800⟩,
   fun _ token _ => if token == "staleT" then .httpError 401 "snerr"
     else .ok (some ⟨"INC0001", "sysid1"⟩),
   ⟨none, none, none⟩,
   .ok (),
   czero⟩

/-- A starting world whose cache holds the still-valid stale token. -/
def c1World : World := ⟨⟨some "staleT", some 10000000⟩, []⟩

/-- A webhook body with a failing quality gate. -/
def c1Body : WebhookBody := ⟨some ⟨some "proj1", some "Proj One"⟩, some ⟨some "ERROR"⟩⟩

/-- An operation that fails on every attempt, reporting its attempt index. -/
def c2fn : Nat → Unit → Except Nat Unit × Unit := fun n _ => (.error n, ())

/-- A policy with 2 retries. -/
def c2p : RetryPolicy := ⟨2, 500, 2, 100, "op"⟩

/-- An operation that fails on every attempt with the same error. -/
def c10fn : Nat → Unit → Except Nat Unit × Unit := fun _ _ => (.error 7, ())

/-- The default policy of `retryOperation` (3 retries, 500 ms base,
factor 2, 100 ms jitter). -/
def c10p : RetryPolicy := ⟨3, 500, 2, 100, "op"⟩

/-- A world with an empty cache and an empty trace. -/
def emptyWorld : World := ⟨⟨none, none⟩, []⟩

/-- A batch environment whose quality service knows one component for
every key, whose ticketing service accepts everything, and whose
configured email channel always fails to send. -/
def c7Env : BatchEnv :=
  ⟨fun _ => .ok ⟨some "tok0", some 1800⟩,
   fun _ _ => .ok ⟨some [⟨"k1", "N1"⟩]⟩,
   fun _ _ _ _ => .ok (some ⟨"INC9", "sid9"⟩),
   ⟨some "h", some "f", some "t"⟩,
   fun _ => .error "smtp down",
   czero⟩

/-- A batch environment whose quality service returns zero matching
components for every key. -/
def c8Env : BatchEnv :=
  ⟨fun _ => .ok ⟨some "tok0", some 1800⟩,
   fun _ _ => .ok ⟨some []⟩,
   fun _ _ _ _ => .ok (some ⟨"I", "S"⟩),
   ⟨none, none, none⟩,
   fun _ => .ok (),
   czero⟩

/-- A batch environment where key "bad" always fails at the quality
service, key "empty" resolves to zero components, and every other key
succeeds end to end. -/
def c3Env : BatchEnv :=
  ⟨fun _ => .ok ⟨some "tok0", some 1800⟩,
   fun key _ => if key == "bad" then .httpError 500 "boom"
     else if key == "empty" then .ok ⟨some []⟩
     else .ok ⟨some [⟨key, "Name"⟩]⟩,
   fun _ _ _ _ => .ok (some ⟨"INC1", "sid1"⟩),
   ⟨none, none, none⟩,
   fun _ => .ok (),
   czero⟩

/-- A webhook environment where everything succeeds. -/
def c9Env : WebhookEnv :=
  ⟨fun _ => .ok ⟨some "tok0", some 1800⟩,
   fun _ _ _ => .ok (some ⟨"INC5", "sid5"⟩),
   ⟨none, none, none⟩,
   .ok (),
   czero⟩

/-- A webhook body whose quality gate carries no `status` field at all. -/
def c9BodyNoStatus : WebhookBody := ⟨some ⟨some "p9", some "P Nine"⟩, some ⟨none⟩⟩

/-- A webhook body whose quality gate passed. -/
def c9BodyOk : WebhookBody := ⟨some ⟨some "p9", some "P Nine"⟩, some ⟨some "OK"⟩⟩

/-! ### Retry loop lemmas -/

/-- Every run of the retry loop invokes the operation at least once and
at most `remaining + 1` times. -/
theorem retryLoop_calls_bounds {E A σ : Type} (fn : Nat → σ → Except E A × σ)
    (p : RetryPolicy) (rand : Nat → ℚ) :
    ∀ (r a : Nat) (s : σ),
      1 ≤ (retryLoop fn p rand a r s).calls ∧ (retryLoop fn p rand a r s).calls ≤ r + 1
  | 0, a, s => by
    unfold retryLoop
    rcases h : fn a s with ⟨res, s1⟩
    cases res <;> simp [h]
  | r + 1, a, s => by
    unfold retryLoop
    rcases h : fn a s with ⟨res, s1⟩
    cases res with
    | ok v => simp [h]
    | error e =>
      obtain ⟨ih1, ih2⟩ := retryLoop_calls_bounds fn p rand r (a + 1) s1
      simp only [h]
      omega

/-- When the retry loop ends in an error it has used every attempt, and
the error returned is exactly the one produced by the final invocation,
whose post-state is the loop's final state. -/
theorem retryLoop_error_exhausts {E A σ : Type} (fn : Nat → σ → Except E A × σ)
    (p : RetryPolicy) (rand : Nat → ℚ) :
    ∀ (r a : Nat) (s : σ) (e : E),
      (retryLoop fn p rand a r s).result = .error e →
      (retryLoop fn p rand a r s).calls = r + 1 ∧
      ∃ s1, fn (a + r) s1 = (.error e, (retryLoop fn p rand a r s).state)
  | 0, a, s, e => by
    unfold retryLoop
    rcases h : fn a s with ⟨res, s1⟩
    cases res with
    | ok v => simp [h]
    | error e2 =>
      intro he
      simp only [h] at he ⊢
      simp at he
      subst he
      exact ⟨by trivial, s, by simp [Nat.add_zero, h]⟩
  | r + 1, a, s, e => by
    unfold retryLoop
    rcases h : fn a s with ⟨res, s1⟩
    cases res with
    | ok v => simp [h]
    | error e2 =>
      intro he
      simp only [h] at he ⊢
      obtain ⟨ih1, s2, ih2⟩ := retryLoop_error_exhausts fn p rand r (a + 1) s1 e he
      refine ⟨by omega, s2, ?_⟩
      have hidx : a + 1 + r = a + (r + 1) := by omega
      rw [hidx] at ih2
      exact ih2

/-- Each delay recorded by the retry loop follows the backoff formula at
the corresponding absolute attempt index. -/
theorem retryLoop_delays_formula {E A σ : Type} (fn : Nat → σ → Except E A × σ)
    (p : RetryPolicy) (rand : Nat → ℚ) :
    ∀ (r a : Nat) (s : σ) (i d : Nat),
      (retryLoop fn p rand a r s).delays.get? i = some d →
      d = retryDelay p (rand (a + i)) (a + i)
  | 0, a, s, i, d => by
    unfold retryLoop
    rcases h : fn a s with ⟨res, s1⟩
    cases res <;> simp [h]
  | r + 1, a, s, i, d => by
    unfold retryLoop
    rcases h : fn a s with ⟨res, s1⟩
    cases res with
    | ok v => simp [h]
    | error e2 =>
      simp only [h]
      cases i with
      | zero => intro hd; simp at hd; simp [hd]
      | succ j =>
        intro hd
        simp only [List.get?_cons_succ] at hd
        have := retryLoop_delays_formula fn p rand r (a + 1) s1 j d hd
        have hidx : a + 1 + j = a + (j + 1) := by omega
        rw [hidx] at this
        exact this

/-- A zero random draw contributes zero jitter. -/
theorem jitterOf_zero (j : Nat) : jitterOf 0 j = 0 := by
  simp [jitterOf]

/-- C2: for every operation and policy, `retryOperation` invokes the
operation at least once and at most `retries + 1` times; if every
attempt fails, the whole policy is exhausted and the exact error raised
by the final attempt (attempt index `calls - 1`) is re-raised to the
caller unchanged, with no wrapping. -/
theorem retryOperation_bound_and_exact_propagation {E A σ : Type}
    (fn : Nat → σ → Except E A × σ) (p : RetryPolicy) (rand : Nat → ℚ) (s : σ) :
    1 ≤ (retryOperation fn p rand s).calls ∧
    (retryOperation fn p rand s).calls ≤ p.retries + 1 ∧
    ∀ e, (retryOperation fn p rand s).result = .error e →
      (retryOperation fn p rand s).calls = p.retries + 1 ∧
      ∃ s1, fn ((retryOperation fn p rand s).calls - 1) s1 =
        (.error e, (retryOperation fn p rand s).state) := by
  obtain ⟨h1, h2⟩ := retryLoop_calls_bounds fn p rand p.retries 0 s
  refine ⟨h1, h2, fun e he => ?_⟩
  obtain ⟨hc, s1, hlast⟩ := retryLoop_error_exhausts fn p rand p.retries 0 s e he
  refine ⟨hc, s1, ?_⟩
  have hidx : (retryOperation fn p rand s).calls - 1 = 0 + p.retries := by
    unfold retryOperation
    omega
  rw [hidx]
  exact hlast

/-- Witness for C2 at a concrete always-failing operation with 2 retries:
3 invocations, the error of the final attempt (index 2) propagated. -/
theorem retryOperation_bound_and_exact_propagation_witness :
    1 ≤ (retryOperation c2fn c2p czero ()).calls ∧
    (retryOperation c2fn c2p czero ()).calls ≤ c2p.retries + 1 ∧
    ((retryOperation c2fn c2p czero ()).calls = c2p.retries + 1 ∧
      ∃ s1, c2fn ((retryOperation c2fn c2p czero ()).calls - 1) s1 =
        (.error 2, (retryOperation c2fn c2p czero ()).state)) :=
  ⟨(retryOperation_bound_and_exact_propagation c2fn c2p czero ()).1,
   (retryOperation_bound_and_exact_propagation c2fn c2p czero ()).2.1,
   (retryOperation_bound_and_exact_propagation c2fn c2p czero ()).2.2 2 rfl⟩

/-- C10: each delay slept before a retry equals
`baseDelay * backoffFactor ^ attemptIndex` plus a jitter value in
`[0, jitterBound)`, with zero-based attempt index (the delay recorded at
position `i` of the delay list follows the first failure of attempt `i`). -/
theorem retryOperation_backoff_formula {E A σ : Type}
    (fn : Nat → σ → Except E A × σ) (p : RetryPolicy) (rand : Nat → ℚ) (s : σ)
    (h0 : ∀ i, 0 ≤ rand i) (h1 : ∀ i, rand i < 1) (hj : 0 < p.jitterMs) :
    ∀ i d, (retryOperation fn p rand s).delays.get? i = some d →
      ∃ jit, d = p.baseDelayMs * p.factor ^ i + jit ∧ jit < p.jitterMs := by
  intro i d hd
  have hform := retryLoop_delays_formula fn p rand p.retries 0 s i d hd
  refine ⟨jitterOf (rand i) p.jitterMs, ?_, ?_⟩
  · rw [hform]
    simp [retryDelay]
  · unfold jitterOf
    have hfl : Int.floor (rand i * (p.jitterMs : ℚ)) < (p.jitterMs : ℤ) := by
      rw [Int.floor_lt]
      push_cast
      calc rand i * (p.jitterMs : ℚ) < 1 * (p.jitterMs : ℚ) := by
            apply mul_lt_mul_of_pos_right (h1 i)
            exact_mod_cast hj
        _ = (p.jitterMs : ℚ) := one_mul _
    have hnn : (0 : ℤ) ≤ Int.floor (rand i * (p.jitterMs : ℚ)) := by
      apply Int.floor_nonneg.mpr
      have : (0 : ℚ) ≤ (p.jitterMs : ℚ) := by positivity
      exact mul_nonneg (h0 i) this
    omega

/-- Witness for C10 at the default policy with an all-zero random
stream: the second delay (attempt index 1) is `500 * 2 ^ 1` plus a
jitter below 100. -/
theorem retryOperation_backoff_formula_witness :
    ∃ jit, 1000 = 500 * 2 ^ 1 + jit ∧ jit < 100 :=
  retryOperation_backoff_formula c10fn c10p czero ()
    (fun _ => le_refl 0) (fun _ => zero_lt_one) (by decide) 1 1000
    (by rw [show (retryOperation c10fn c10p czero ()).delays =
          [500 + jitterOf 0 100, 1000 + jitterOf 0 100, 2000 + jitterOf 0 100] from rfl,
        jitterOf_zero]
        rfl)

/-! ### Token cache claims -/

/-- C4: whenever a token is cached and the clock is earlier than the
stored expiry minus the 5-minute buffer (300000 ms), `getServiceNowToken`
returns the cached token and leaves the world untouched — in particular
no `oauthExchange` call is made, whatever outcome the exchange would
have had. -/
theorem getServiceNowToken_cache_validity
    (now : Int) (fetchOutcome : HttpOutcome TokenResponse) (w : World)
    (t : String) (e : Int)
    (ht : w.cache.cachedToken = some t) (ht2 : t ≠ "")
    (he : w.cache.tokenExpiry = some e) (he2 : e ≠ 0)
    (hlt : now < e - 300000) :
    getServiceNowToken now fetchOutcome w = (.ok t, w) := by
  have hvalid : tokenCacheValid now w.cache = true := by
    simp [tokenCacheValid, ht, he, truthyStr, truthyInt, ht2, he2, hlt]
  simp [getServiceNowToken, hvalid, ht]

/-- Witness for C4: a cached token far from expiry is returned even
though the exchange would be unreachable. -/
theorem getServiceNowToken_cache_validity_witness :
    getServiceNowToken 0 (.noResponse "down") ⟨⟨some "tokA", some 10000000⟩, []⟩ =
      (.ok "tokA", ⟨⟨some "tokA", some 10000000⟩, []⟩) :=
  getServiceNowToken_cache_validity 0 (.noResponse "down")
    ⟨⟨some "tokA", some 10000000⟩, []⟩ "tokA" 10000000 rfl (by decide) rfl
    (by decide) (by decide)

/-- C5: after a 401 from ticket creation has cleared the cache, the next
`getServiceNowToken` call performs the OAuth exchange (an `oauthExchange`
call is appended) regardless of the clock and of the previously stored
expiry, and a successful exchange returns the freshly fetched token. -/
theorem invalidation_forces_refresh (b token : String) (payload : TicketPayload)
    (w : World) (now : Int) (f : HttpOutcome TokenResponse) :
    (getServiceNowToken now f
        ((createServiceNowIncident (fun _ _ => .httpError 401 b) token payload w).2)).2.calls =
      ((createServiceNowIncident (fun _ _ => .httpError 401 b) token payload w).2).calls
        ++ [CallEvent.oauthExchange] ∧
    ∀ (tok : String) (exp : Int), tok ≠ "" →
      (getServiceNowToken now (.ok ⟨some tok, some exp⟩)
        ((createServiceNowIncident (fun _ _ => .httpError 401 b) token payload w).2)).1 =
        .ok tok := by
  have hw : (createServiceNowIncident (fun _ _ => .httpError 401 b) token payload w).2 =
      ⟨⟨none, none⟩, w.calls ++ [CallEvent.submitIncident token]⟩ := by
    simp [createServiceNowIncident]
  rw [hw]
  have hinvalid : tokenCacheValid now (⟨none, none⟩ : CacheState) = false := by
    simp [tokenCacheValid, truthyStr]
  constructor
  · cases f <;> simp [getServiceNowToken, hinvalid] <;> split <;> rfl
  · intro tok exp htok
    simp [getServiceNowToken, hinvalid, truthyStr, htok]

/-- Witness for C5: after a 401 the exchange runs again and hands out
the fresh token. -/
theorem invalidation_forces_refresh_witness :
    (getServiceNowToken 5 (.ok ⟨some "fresh", some 1800⟩)
        ((createServiceNowIncident (fun _ _ => .httpError 401 "eb") "t0"
          ⟨"s", "d", "3", "3"⟩ ⟨⟨some "t0", some 99999999⟩, []⟩).2)).2.calls =
      ((createServiceNowIncident (fun _ _ => .httpError 401 "eb") "t0"
          ⟨"s", "d", "3", "3"⟩ ⟨⟨some "t0", some 99999999⟩, []⟩).2).calls
        ++ [CallEvent.oauthExchange] ∧
    (getServiceNowToken 5 (.ok ⟨some "fresh", some 1800⟩)
        ((createServiceNowIncident (fun _ _ => .httpError 401 "eb") "t0"
          ⟨"s", "d", "3", "3"⟩ ⟨⟨some "t0", some 99999999⟩, []⟩).2)).1 = .ok "fresh" :=
  ⟨(invalidation_forces_refresh "eb" "t0" ⟨"s", "d", "3", "3"⟩
      ⟨⟨some "t0", some 99999999⟩, []⟩ 5 (.ok ⟨some "fresh", some 1800⟩)).1,
   (invalidation_forces_refresh "eb" "t0" ⟨"s", "d", "3", "3"⟩
      ⟨⟨some "t0", some 99999999⟩, []⟩ 5 (.ok ⟨some "fresh", some 1800⟩)).2
     "fresh" 1800 (by decide)⟩

/-! ### Ticket-creation retry and the captured token (C1) -/

/-- Every run of `createServiceNowIncident` appends exactly one
`submitIncident` call carrying the token it was given. -/
theorem createServiceNowIncident_trace
    (submit : String → TicketPayload → HttpOutcome (Option Incident))
    (token : String) (payload : TicketPayload) (w : World) :
    ((createServiceNowIncident submit token payload w).2).calls =
      w.calls ++ [CallEvent.submitIncident token] := by
  unfold createServiceNowIncident
  rcases h : submit token payload with d | ⟨st, b⟩ | m
  · cases d <;> simp [h]
  · rcases hst : (st == 401) <;> simp [h, hst]
  · simp [h]

/-- If the wrapped operation appends exactly one fixed call event per
invocation, a whole retry run appends one copy of that event per
invocation and nothing else. -/
theorem retryLoop_trace_fixed_event {E A : Type} (fn : Nat → World → Except E A × World)
    (p : RetryPolicy) (rand : Nat → ℚ) (ev : CallEvent)
    (hfn : ∀ a w, ((fn a w).2).calls = w.calls ++ [ev]) :
    ∀ (r a : Nat) (w : World),
      ((retryLoop fn p rand a r w).state).calls =
        w.calls ++ List.replicate (retryLoop fn p rand a r w).calls ev
  | 0, a, w => by
    unfold retryLoop
    rcases h : fn a w with ⟨res, s1⟩
    have h2 := hfn a w
    rw [h] at h2
    simp at h2
    cases res <;> simp [h, h2, List.replicate]
  | r + 1, a, w => by
    unfold retryLoop
    rcases h : fn a w with ⟨res, s1⟩
    have h2 := hfn a w
    rw [h] at h2
    simp at h2
    cases res with
    | ok v => simp [h, h2, List.replicate]
    | error e =>
      have ih := retryLoop_trace_fixed_event fn p rand ev hfn r (a + 1) s1
      simp only [h, ih, h2]
      rw [List.append_assoc, List.singleton_append, ← List.replicate_succ]

/-- C1 (amended): when a ticket-creation attempt fails with a 401, the
token cache is invalidated before the failure surfaces, so the *next*
`getServiceNowToken` call performs a fresh OAuth exchange; however, the
retry attempts driven by `retryOperation` reuse the same captured bearer
token on every attempt (the trace of a whole incident retry phase is one
`submitIncident` with that very token per attempt, with no
`oauthExchange` in between) rather than fetching a fresh one. -/
theorem create_incident_401_invalidates_but_retries_reuse_token :
    (∀ (submit : String → TicketPayload → HttpOutcome (Option Incident))
       (token : String) (payload : TicketPayload) (w : World) (b : String),
       submit token payload = .httpError 401 b →
       createServiceNowIncident submit token payload w =
         (.error s!"ServiceNow incident error: 401 - {b}",
          ⟨⟨none, none⟩, w.calls ++ [CallEvent.submitIncident token]⟩)) ∧
    (∀ (env : WebhookEnv) (pk token : String) (payload : TicketPayload) (w : World),
       ((webhookIncidentPhase env pk token payload w).state).calls =
         w.calls ++ List.replicate (webhookIncidentPhase env pk token payload w).calls
           (CallEvent.submitIncident token)) ∧
    (∀ (now : Int) (f : HttpOutcome TokenResponse) (w : World),
       w.cache.cachedToken = none →
       (getServiceNowToken now f w).2.calls = w.calls ++ [CallEvent.oauthExchange]) := by
  refine ⟨?_, ?_, ?_⟩
  · intro submit token payload w b h
    simp [createServiceNowIncident, h]
    rfl
  · intro env pk token payload w
    exact retryLoop_trace_fixed_event
      (fun a w => createServiceNowIncident (env.submit a) token payload w)
      (incidentPolicy pk) env.rand (CallEvent.submitIncident token)
      (fun a w => createServiceNowIncident_trace (env.submit a) token payload w)
      (incidentPolicy pk).retries 0 w
  · intro now f w hnone
    have hinvalid : tokenCacheValid now w.cache = false := by
      simp [tokenCacheValid, hnone, truthyStr]
    cases f <;> simp [getServiceNowToken, hinvalid] <;> split <;> rfl

/-- Witness for the amended C1 at concrete inputs: a 401 clears the
cache and surfaces the wrapped error, and with the cache cleared the
next `getServiceNowToken` performs the exchange. -/
theorem create_incident_401_invalidates_but_retries_reuse_token_witness :
    createServiceNowIncident (fun _ _ => .httpError 401 "eb") "tk"
        ⟨"s", "d", "3", "3"⟩ ⟨⟨some "tk", some 99⟩, []⟩ =
      (.error "ServiceNow incident error: 401 - eb",
       ⟨⟨none, none⟩, [CallEvent.submitIncident "tk"]⟩) ∧
    (getServiceNowToken 0 (.ok ⟨some "nt", some 1800⟩) ⟨⟨none, none⟩, []⟩).2.calls =
      [CallEvent.oauthExchange] :=
  ⟨create_incident_401_invalidates_but_retries_reuse_token.1
      (fun _ _ => .httpError 401 "eb") "tk" ⟨"s", "d", "3", "3"⟩
      ⟨⟨some "tk", some 99⟩, []⟩ "eb" rfl,
   create_incident_401_invalidates_but_retries_reuse_token.2.2 0
      (.ok ⟨some "nt", some 1800⟩) ⟨⟨none, none⟩, []⟩ rfl⟩

/-- C1 (counterexample to the claim as stated): with the still-valid
stale token "staleT" cached, an environment whose ticketing service
rejects "staleT" with a 401 but would accept the fresh token "freshT"
offered by the OAuth exchange, the webhook handler fails: all four
ticket-creation attempts carry the same stale token, no `oauthExchange`
is ever performed during the retries (the trace holds no such event),
and the 500 error surfaces — the cache is cleared (invalidated), but the
retry attempts do not fetch or use a fresh token. -/
theorem webhook_retry_reuses_stale_token_counterexample :
    (handleSonarWebhook c1Env 0 c1Body c1World).1 =
      .serverError "ServiceNow incident error: 401 - snerr" ∧
    (handleSonarWebhook c1Env 0 c1Body c1World).2.calls =
      [CallEvent.submitIncident "staleT", CallEvent.submitIncident "staleT",
       CallEvent.submitIncident "staleT", CallEvent.submitIncident "staleT"] ∧
    (handleSonarWebhook c1Env 0 c1Body c1World).2.cache = ⟨none, none⟩ :=
  ⟨rfl, rfl, rfl⟩

/-! ### Cache frame property (C6) -/

/-- C6: the token-cache fields are modified only by a successful OAuth
exchange (which sets both) and by a 401 from ticket creation (which
clears both).  In detail: a cache hit returns the cached token with the
whole world untouched; every failing exchange (error response, no
response, or missing token in a 2xx body) leaves the cache unchanged and
propagates an error — never a stale token; a successful exchange sets
both fields; ticket creation clears both fields on a 401 and otherwise
leaves the cache unchanged; and neither the quality-service lookup nor
the notification sink ever touches the cache. -/
theorem token_cache_frame :
    (∀ (now : Int) (f : HttpOutcome TokenResponse) (w : World),
       tokenCacheValid now w.cache = true →
       getServiceNowToken now f w = (.ok (w.cache.cachedToken.getD ""), w)) ∧
    (∀ (now : Int) (w : World) (st : Nat) (d : String),
       tokenCacheValid now w.cache = false →
       (getServiceNowToken now (.httpError st d) w).2.cache = w.cache ∧
       (getServiceNowToken now (.httpError st d) w).1 =
         .error s!"ServiceNow OAuth error: {st} - {d}") ∧
    (∀ (now : Int) (w : World) (m : String),
       tokenCacheValid now w.cache = false →
       (getServiceNowToken now (.noResponse m) w).2.cache = w.cache ∧
       (getServiceNowToken now (.noResponse m) w).1 =
         .error s!"ServiceNow OAuth unreachable: {m}") ∧
    (∀ (now : Int) (w : World) (resp : TokenResponse),
       tokenCacheValid now w.cache = false →
       truthyStr resp.access_token = false →
       (getServiceNowToken now (.ok resp) w).2.cache = w.cache ∧
       (getServiceNowToken now (.ok resp) w).1 =
         .error "ServiceNow token missing in response") ∧
    (∀ (now : Int) (w : World) (resp : TokenResponse) (t : String),
       tokenCacheValid now w.cache = false →
       resp.access_token = some t → t ≠ "" →
       (getServiceNowToken now (.ok resp) w).1 = .ok t ∧
       (getServiceNowToken now (.ok resp) w).2.cache =
         ⟨some t, some (now + jsOrInt resp.expires_in 1800 * 1000)⟩) ∧
    (∀ (submit : String → TicketPayload → HttpOutcome (Option Incident))
       (token : String) (payload : TicketPayload) (w : World),
       ((∃ b, submit token payload = .httpError 401 b) →
          (createServiceNowIncident submit token payload w).2.cache = ⟨none, none⟩) ∧
       ((∀ b, submit token payload ≠ .httpError 401 b) →
          (createServiceNowIncident submit token payload w).2.cache = w.cache)) ∧
    (∀ (o : HttpOutcome SonarData) (k : String) (w : World),
       (getSonarQubeProject o k w).2.cache = w.cache) ∧
    (∀ (cfg : EmailConfig) (out : Except String Unit) (inc : Incident)
       (k : String) (n : Option String) (w : World),
       (sendIncidentEmail cfg out inc k n w).cache = w.cache) := by
  refine ⟨?_, ?_, ?_, ?_, ?_, ?_, ?_, ?_⟩
  · intro now f w hv
    simp [getServiceNowToken, hv]
  · intro now w st d hv
    simp [getServiceNowToken, hv]
  · intro now w m hv
    simp [getServiceNowToken, hv]
  · intro now w resp hv hmiss
    simp [getServiceNowToken, hv, hmiss]
  · intro now w resp t hv hat ht
    simp [getServiceNowToken, hv, truthyStr, hat, ht]
  · intro submit token payload w
    constructor
    · rintro ⟨b, hb⟩
      simp [createServiceNowIncident, hb]
    · intro hne
      rcases hs : submit token payload with d | ⟨st, b⟩ | m
      · cases d <;> simp [createServiceNowIncident, hs]
      · have hst : st ≠ 401 := by
          intro h
          exact hne b (by rw [hs, h])
        simp [createServiceNowIncident, hs, hst]
      · simp [createServiceNowIncident, hs]
  · intro o k w
    cases o <;> simp [getSonarQubeProject]
  · intro cfg out inc k n w
    unfold sendIncidentEmail
    split
    · cases out <;> rfl
    · rfl

/-- Witness for C6: a failing exchange (HTTP 500) propagates an error
leaving the empty cache unchanged; a successful exchange sets both
fields; a 401 from ticket creation clears both fields. -/
theorem token_cache_frame_witness :
    ((getServiceNowToken 0 (.httpError 500 "boom") emptyWorld).2.cache =
       emptyWorld.cache ∧
     (getServiceNowToken 0 (.httpError 500 "boom") emptyWorld).1 =
       .error "ServiceNow OAuth error: 500 - boom") ∧
    ((getServiceNowToken 0 (.ok ⟨some "t1", some 60⟩) emptyWorld).1 = .ok "t1" ∧
     (getServiceNowToken 0 (.ok ⟨some "t1", some 60⟩) emptyWorld).2.cache =
       ⟨some "t1", some 60000⟩) ∧
    (createServiceNowIncident (fun _ _ => .httpError 401 "x") "tk"
        ⟨"s", "d", "3", "3"⟩ ⟨⟨some "tk", some 7⟩, []⟩).2.cache = ⟨none, none⟩ :=
  ⟨token_cache_frame.2.1 0 emptyWorld 500 "boom" rfl,
   ⟨(token_cache_frame.2.2.2.2.1 0 emptyWorld ⟨some "t1", some 60⟩ "t1" rfl rfl
       (by decide)).1,
    (token_cache_frame.2.2.2.2.1 0 emptyWorld ⟨some "t1", some 60⟩ "t1" rfl rfl
       (by decide)).2⟩,
   (token_cache_frame.2.2.2.2.2.1 (fun _ _ => .httpError 401 "x") "tk"
       ⟨"s", "d", "3", "3"⟩ ⟨⟨some "tk", some 7⟩, []⟩).1 ⟨"x", rfl⟩⟩

/-! ### Notification isolation (C7) and NotFound short-circuit (C8) -/

/-- C7: the notification sink never raises: it returns a plain world (its
Lean type admits no failure), it only ever appends to the call trace and
never touches the cache whatever the send outcome, it no-ops entirely
when the email channel is unconfigured, and a notification failure after
a successful ticket creation still yields an `incident_created` outcome
record carrying the created ticket. -/
theorem notification_isolation :
    (∀ (cfg : EmailConfig) (out : Except String Unit) (inc : Incident)
       (k : String) (n : Option String) (w : World),
       truthyStr cfg.smtpHost = false ∨ truthyStr cfg.emailFrom = false ∨
         truthyStr cfg.emailTo = false →
       sendIncidentEmail cfg out inc k n w = w) ∧
    (∀ (cfg : EmailConfig) (out : Except String Unit) (inc : Incident)
       (k : String) (n : Option String) (w : World),
       (sendIncidentEmail cfg out inc k n w).cache = w.cache ∧
       ∃ evs, (sendIncidentEmail cfg out inc k n w).calls = w.calls ++ evs) ∧
    (∀ (env : BatchEnv) (token key : String) (w : World) (d : SonarData)
       (comp : SonarComponent) (inc : Incident),
       (sonarPhase env key w).result = .ok d →
       jsHead d.components = some comp →
       (incidentPhase env key token (batchPayload key comp.name)
           (sonarPhase env key w).state).result = .ok inc →
       (processKey env token key w).1 =
         ⟨key, .incident_created, some ⟨inc.number, inc.sys_id⟩, none⟩) := by
  refine ⟨?_, ?_, ?_⟩
  · intro cfg out inc k n w h
    rcases h with h | h | h <;> simp [sendIncidentEmail, h]
  · intro cfg out inc k n w
    unfold sendIncidentEmail
    split
    · cases out <;> exact ⟨rfl, [CallEvent.emailSend], rfl⟩
    · exact ⟨rfl, [], by simp⟩
  · intro env token key w d comp inc hs hc hi
    unfold processKey
    simp only [hs, hc, hi]

/-- Witness for C7: with a configured but failing email channel the
record still reports `incident_created`, and an unconfigured channel
makes the sink a strict no-op. -/
theorem notification_isolation_witness :
    (processKey c7Env "tok0" "k1" emptyWorld).1 =
      ⟨"k1", .incident_created, some ⟨"INC9", "sid9"⟩, none⟩ ∧
    sendIncidentEmail ⟨none, some "f", some "t"⟩ (.ok ()) ⟨"i", "s"⟩ "k" none
      c1World = c1World :=
  ⟨notification_isolation.2.2 c7Env "tok0" "k1" emptyWorld ⟨some [⟨"k1", "N1"⟩]⟩
      ⟨"k1", "N1"⟩ ⟨"INC9", "sid9"⟩ rfl rfl rfl,
   notification_isolation.1 ⟨none, some "f", some "t"⟩ (.ok ()) ⟨"i", "s"⟩ "k" none
      c1World (Or.inl rfl)⟩

/-- Every run of `getSonarQubeProject` appends exactly one `sonarFetch`
call for its key. -/
theorem getSonarQubeProject_trace (o : HttpOutcome SonarData) (k : String)
    (w : World) :
    ((getSonarQubeProject o k w).2).calls = w.calls ++ [CallEvent.sonarFetch k] := by
  cases o <;> simp [getSonarQubeProject]

/-- C8: a successful quality-service lookup with zero matching components
yields a `not_found` record for that key, stops there (the final world is
the one after the lookup phase), and makes no ticketing call at all: the
only calls added to the trace are quality-service fetches for that key. -/
theorem notfound_skips_ticketing
    (env : BatchEnv) (token key : String) (w : World) (d : SonarData)
    (hs : (sonarPhase env key w).result = .ok d)
    (hc : jsHead d.components = none) :
    (processKey env token key w).1 = ⟨key, .not_found, none, none⟩ ∧
    (processKey env token key w).2 = (sonarPhase env key w).state ∧
    ∃ n, ((processKey env token key w).2).calls =
      w.calls ++ List.replicate n (CallEvent.sonarFetch key) := by
  have hrec : (processKey env token key w).1 = ⟨key, .not_found, none, none⟩ ∧
      (processKey env token key w).2 = (sonarPhase env key w).state := by
    unfold processKey
    simp only [hs, hc]
    exact ⟨by trivial, by trivial⟩
  refine ⟨hrec.1, hrec.2, (sonarPhase env key w).calls, ?_⟩
  rw [hrec.2]
  exact retryLoop_trace_fixed_event
    (fun a w => getSonarQubeProject (env.sonar key a) key w)
    (sonarPolicy key) env.rand (CallEvent.sonarFetch key)
    (fun a w => getSonarQubeProject_trace (env.sonar key a) key w)
    (sonarPolicy key).retries 0 w

/-- Witness for C8: a key whose lookup returns an empty component list
produces `not_found` and a trace holding only quality-service fetches. -/
theorem notfound_skips_ticketing_witness :
    (processKey c8Env "tok0" "kE" emptyWorld).1 = ⟨"kE", .not_found, none, none⟩ ∧
    (processKey c8Env "tok0" "kE" emptyWorld).2 =
      (sonarPhase c8Env "kE" emptyWorld).state ∧
    ∃ n, ((processKey c8Env "tok0" "kE" emptyWorld).2).calls =
      emptyWorld.calls ++ List.replicate n (CallEvent.sonarFetch "kE") :=
  notfound_skips_ticketing c8Env "tok0" "kE" emptyWorld ⟨some []⟩ rfl rfl

/-! ### Quality-gate pass-through (C9) -/

/-- C9: for every webhook request with a truthy project key, a status of
exactly "OK" produces the no-action response with the world — cache and
call trace — completely untouched (zero downstream calls); and, provided
the downstream token and ticket phases succeed, an incident-created
response is returned exactly when the status differs from "OK"
(including when the status field is absent). -/
theorem quality_gate_passthrough
    (env : WebhookEnv) (now : Int) (body : WebhookBody) (w0 : World)
    (hkey : truthyStr (webhookKey body) = true) :
    (webhookStatus body = some "OK" →
      handleSonarWebhook env now body w0 = (.noAction, w0)) ∧
    (∀ (token : String) (inc : Incident),
      (webhookTokenPhase env now w0).result = .ok token →
      (webhookIncidentPhase env ((webhookKey body).getD "") token
          (webhookPayload ((webhookKey body).getD "") (webhookName body)
            (webhookStatus body))
          (webhookTokenPhase env now w0).state).result = .ok inc →
      ((∃ i, (handleSonarWebhook env now body w0).1 = .created i) ↔
        webhookStatus body ≠ some "OK")) := by
  constructor
  · intro hok
    simp [handleSonarWebhook, hkey, hok]
  · intro token inc htok hinc
    by_cases hst : webhookStatus body = some "OK"
    · constructor
      · rintro ⟨i, hi⟩
        rw [show handleSonarWebhook env now body w0 = (.noAction, w0) from by
          simp [handleSonarWebhook, hkey, hst]] at hi
        exact absurd hi (by simp)
      · intro hne
        exact absurd hst hne
    · constructor
      · intro _
        exact hst
      · intro _
        refine ⟨⟨inc.number, inc.sys_id⟩, ?_⟩
        simp [handleSonarWebhook, hkey, hst, htok, hinc]

/-- Witness for C9: a body with no status field triggers ticket creation
(absent status differs from "OK"), while an "OK" body yields the
no-action response on an untouched world. -/
theorem quality_gate_passthrough_witness :
    ((∃ i, (handleSonarWebhook c9Env 0 c9BodyNoStatus emptyWorld).1 = .created i) ↔
      webhookStatus c9BodyNoStatus ≠ some "OK") ∧
    handleSonarWebhook c9Env 0 c9BodyOk emptyWorld = (.noAction, emptyWorld) :=
  ⟨(quality_gate_passthrough c9Env 0 c9BodyNoStatus emptyWorld rfl).2 "tok0"
      ⟨"INC5", "sid5"⟩ rfl rfl,
   (quality_gate_passthrough c9Env 0 c9BodyOk emptyWorld rfl).1 rfl⟩

/-! ### Batch order preservation and per-key isolation (C3) -/

/-- The outcome part of a quality-service lookup depends only on the
HTTP outcome, never on the starting world. -/
theorem getSonarQubeProject_fst (o : HttpOutcome SonarData) (k : String)
    (w w2 : World) :
    (getSonarQubeProject o k w).1 = (getSonarQubeProject o k w2).1 := by
  cases o <;> rfl

/-- The outcome part of a ticket creation depends only on the submit
outcome, never on the starting world. -/
theorem createServiceNowIncident_fst
    (submit : String → TicketPayload → HttpOutcome (Option Incident))
    (token : String) (payload : TicketPayload) (w w2 : World) :
    (createServiceNowIncident submit token payload w).1 =
      (createServiceNowIncident submit token payload w2).1 := by
  unfold createServiceNowIncident
  rcases h : submit token payload with d | ⟨st, b⟩ | m
  · cases d <;> simp [h]
  · simp [h]
  · simp [h]

/-- If the outcome of the wrapped operation never depends on the state,
then neither does the outcome of a whole retry run. -/
theorem retryLoop_result_indep {E A σ : Type} (fn : Nat → σ → Except E A × σ)
    (p : RetryPolicy) (rand : Nat → ℚ)
    (hfn : ∀ a s s2, (fn a s).1 = (fn a s2).1) :
    ∀ (r a : Nat) (s s2 : σ),
      (retryLoop fn p rand a r s).result = (retryLoop fn p rand a r s2).result
  | 0, a, s, s2 => by
    unfold retryLoop
    have h := hfn a s s2
    rcases h1 : fn a s with ⟨res, t1⟩
    rcases h2 : fn a s2 with ⟨res2, t2⟩
    rw [h1, h2] at h
    simp at h
    subst h
    cases res <;> simp [h1, h2]
  | r + 1, a, s, s2 => by
    unfold retryLoop
    have h := hfn a s s2
    rcases h1 : fn a s with ⟨res, t1⟩
    rcases h2 : fn a s2 with ⟨res2, t2⟩
    rw [h1, h2] at h
    simp at h
    subst h
    cases res with
    | ok v => simp [h1, h2]
    | error e =>
      have ih := retryLoop_result_indep fn p rand hfn r (a + 1) t1 t2
      simp [h1, h2, ih]

/-- The outcome record computed for one key depends only on the
environment, the captured token and the key itself — never on the world
accumulated by the previously processed keys. -/
theorem processKey_fst_indep (env : BatchEnv) (token key : String) (w w2 : World) :
    (processKey env token key w).1 = (processKey env token key w2).1 := by
  have hs : (sonarPhase env key w).result = (sonarPhase env key w2).result :=
    retryLoop_result_indep _ (sonarPolicy key) env.rand
      (fun a s s2 => getSonarQubeProject_fst (env.sonar key a) key s s2)
      (sonarPolicy key).retries 0 w w2
  unfold processKey
  rcases h1 : (sonarPhase env key w2).result with e | d
  · simp [hs.trans h1, h1]
  · simp only [hs.trans h1, h1]
    rcases h2 : jsHead d.components with _ | comp
    · simp [h2]
    · have hi : (incidentPhase env key token (batchPayload key comp.name)
            (sonarPhase env key w).state).result =
          (incidentPhase env key token (batchPayload key comp.name)
            (sonarPhase env key w2).state).result :=
        retryLoop_result_indep _ (incidentPolicy key) env.rand
          (fun a s s2 => createServiceNowIncident_fst (env.submit key a) token
            (batchPayload key comp.name) s s2)
          (incidentPolicy key).retries 0 (sonarPhase env key w).state
          (sonarPhase env key w2).state
      rcases h3 : (incidentPhase env key token (batchPayload key comp.name)
          (sonarPhase env key w2).state).result with e2 | inc
      · simp [h2, hi.trans h3, h3]
      · simp [h2, hi.trans h3, h3]

/-- Every outcome record names the key it was produced for. -/
theorem processKey_projectKey (env : BatchEnv) (token key : String) (w : World) :
    ((processKey env token key w).1).projectKey = key := by
  unfold processKey
  rcases h1 : (sonarPhase env key w).result with e | d
  · simp [h1]
  · rcases h2 : jsHead d.components with _ | comp
    · simp [h1, h2]
    · rcases h3 : (incidentPhase env key token (batchPayload key comp.name)
          (sonarPhase env key w).state).result with e2 | inc <;>
        simp [h1, h2, h3]

/-- Folding the batch step over a key list appends, in input order, the
record each key would produce from any fixed starting world. -/
theorem batch_foldl_map (env : BatchEnv) (token : String) (w0 : World) :
    ∀ (keys : List String) (acc : List OutcomeRecord) (w : World),
      (List.foldl (batchStep env token) (acc, w) keys).1 =
        acc ++ keys.map (fun k => (processKey env token k w0).1)
  | [], acc, w => by simp
  | k :: ks, acc, w => by
    simp only [List.foldl_cons, List.map_cons, batchStep]
    rw [batch_foldl_map env token w0 ks (acc ++ [(processKey env token k w).1])
      (processKey env token k w).2]
    rw [processKey_fst_indep env token k w w0]
    rw [List.append_assoc, List.singleton_append]

/-- C3: when the pre-batch token acquisition succeeds, the batch response
holds exactly one outcome record per input key, in input order, and each
record is a function of its own key alone (so a failing key — whose
record carries `status = error` produced by its own per-key catch —
cannot alter any other key's record); every record names its key. -/
theorem batch_order_isolation (env : BatchEnv) (now : Int) (keys : List String)
    (w0 : World) (token : String)
    (hne : keys ≠ []) (hle : keys.length ≤ 50)
    (htok : (batchTokenPhase env now w0).result = .ok token) :
    (∃ w1, handleCreateIncidents env now (some keys) w0 =
       (.okResults "Batch processed"
         (keys.map (fun k => (processKey env token k w0).1)), w1)) ∧
    (∀ (k : String) (w : World), ((processKey env token k w).1).projectKey = k) := by
  constructor
  · refine ⟨(List.foldl (batchStep env token) ([], (batchTokenPhase env now w0).state)
      keys).2, ?_⟩
    have h0 : (keys.length == 0) = false := by
      simp only [beq_eq_false_iff_ne, ne_eq]
      intro h
      exact hne (List.length_eq_zero.mp h)
    have h50 : ¬ keys.length > 50 := by omega
    simp only [handleCreateIncidents, h0, Bool.false_eq_true, if_false, if_neg h50, htok]
    rw [batch_foldl_map env token w0 keys [] (batchTokenPhase env now w0).state]
    simp
  · intro k w
    exact processKey_projectKey env token k w

/-- Witness for C3 at a three-key batch where the middle key fails and
the last resolves to nothing: one record per key, in order, each a
function of its own key. -/
theorem batch_order_isolation_witness :
    (∃ w1, handleCreateIncidents c3Env 0 (some ["k1", "bad", "empty"]) emptyWorld =
       (.okResults "Batch processed"
         (["k1", "bad", "empty"].map
           (fun k => (processKey c3Env "tok0" k emptyWorld).1)), w1)) ∧
    (∀ (k : String) (w : World), ((processKey c3Env "tok0" k w).1).projectKey = k) :=
  batch_order_isolation c3Env 0 ["k1", "bad", "empty"] emptyWorld "tok0"
    (by simp) (by simp) rfl

end Gateway
